/-
  Verification development for the scintilla_rs ray-tracer core.

  The Rust source is shallowly embedded over the real numbers: every f64
  value is modelled as a real number, f64 `sqrt` as `Real.sqrt`, `powf` as
  `Real.rpow`, and `powi` as monoid power.  Structures, field names and the
  branch structure of every function mirror the corresponding Rust item
  (file and function names are noted next to each definition).
-/
import Mathlib

noncomputable section

open scoped Classical

namespace Scintilla

/-- Fixed comparison tolerance, from src/float.rs (`float::EPSILON`). -/
def EPSILON : ℝ := 0.00001

/-- Epsilon-tolerant scalar equality, from src/float.rs (`float::is_equal`). -/
def float_is_equal (a b : ℝ) : Prop := |a - b| < EPSILON

/-- Four-component tuple, from src/tuple.rs (`Tuple = [f64; 4]`, indices
0,1,2,3 written x,y,z,w). -/
structure Tuple where
  x : ℝ
  y : ℝ
  z : ℝ
  w : ℝ

namespace Tuple

/-- From src/tuple.rs `Tuple::point`. -/
def point (x y z : ℝ) : Tuple := ⟨x, y, z, 1⟩

/-- From src/tuple.rs `Tuple::vector`. -/
def vector (x y z : ℝ) : Tuple := ⟨x, y, z, 0⟩

/-- From src/tuple.rs `TupleMethods::is_equal` (componentwise epsilon). -/
def is_equal (a b : Tuple) : Prop :=
  float_is_equal a.x b.x ∧ float_is_equal a.y b.y ∧
    float_is_equal a.z b.z ∧ float_is_equal a.w b.w

/-- From src/tuple.rs `TupleMethods::add`. -/
def add (a b : Tuple) : Tuple := ⟨a.x + b.x, a.y + b.y, a.z + b.z, a.w + b.w⟩

/-- From src/tuple.rs `TupleMethods::subtract`. -/
def subtract (a b : Tuple) : Tuple := ⟨a.x - b.x, a.y - b.y, a.z - b.z, a.w - b.w⟩

/-- From src/tuple.rs `TupleMethods::multiply` (scalar). -/
def multiply (a : Tuple) (s : ℝ) : Tuple := ⟨s * a.x, s * a.y, s * a.z, s * a.w⟩

/-- From src/tuple.rs `TupleMethods::negate`. -/
def negate (a : Tuple) : Tuple := ⟨-a.x, -a.y, -a.z, -a.w⟩

/-- From src/tuple.rs `TupleMethods::divide`. -/
def divide (a : Tuple) (s : ℝ) : Tuple := ⟨a.x / s, a.y / s, a.z / s, a.w / s⟩

/-- From src/tuple.rs `TupleMethods::magnitude`; note the w component is
not included, exactly as in the source. -/
def magnitude (a : Tuple) : ℝ := Real.sqrt (a.x * a.x + a.y * a.y + a.z * a.z)

/-- From src/tuple.rs `TupleMethods::dot`; all four components, as in the
source. -/
def dot (a b : Tuple) : ℝ := a.x * b.x + a.y * b.y + a.z * b.z + a.w * b.w

/-- From src/tuple.rs `TupleMethods::normalize`. -/
def normalize (a : Tuple) : Tuple := a.divide a.magnitude

/-- From src/tuple.rs `TupleMethods::reflect`. -/
def reflect (a normal : Tuple) : Tuple :=
  a.subtract (normal.multiply (2 * a.dot normal))

end Tuple

/-- RGB color, from src/color.rs (`Color`). -/
structure Color where
  r : ℝ
  g : ℝ
  b : ℝ

/-- From src/color.rs `color::BLACK`. -/
def BLACK : Color := ⟨0, 0, 0⟩

/-- From src/color.rs `color::WHITE`. -/
def WHITE : Color := ⟨1, 1, 1⟩

namespace Color

/-- From src/color.rs `Color::add`. -/
def add (a b : Color) : Color := ⟨a.r + b.r, a.g + b.g, a.b + b.b⟩

/-- From src/color.rs `Color::subtract`. -/
def subtract (a b : Color) : Color := ⟨a.r - b.r, a.g - b.g, a.b - b.b⟩

/-- From src/color.rs `Color::multiply` (scalar). -/
def multiply (a : Color) (s : ℝ) : Color := ⟨a.r * s, a.g * s, a.b * s⟩

/-- From src/color.rs `Color::hadamard`. -/
def hadamard (a b : Color) : Color := ⟨a.r * b.r, a.g * b.g, a.b * b.b⟩

end Color

/-- Row-major 4x4 matrix, from src/matrix.rs (`Matrix4 = [[f64; 4]; 4]`);
each row is a `Tuple`, matching how the source dots rows against tuples. -/
structure Matrix4 where
  row0 : Tuple
  row1 : Tuple
  row2 : Tuple
  row3 : Tuple

/-- From src/matrix.rs `matrix::IDENTITY`. -/
def IDENTITY : Matrix4 :=
  ⟨⟨1, 0, 0, 0⟩, ⟨0, 1, 0, 0⟩, ⟨0, 0, 1, 0⟩, ⟨0, 0, 0, 1⟩⟩

namespace Matrix4

/-- From src/matrix.rs `Matrix4Methods::is_equal` (rowwise tuple epsilon
equality). -/
def is_equal (m n : Matrix4) : Prop :=
  Tuple.is_equal m.row0 n.row0 ∧ Tuple.is_equal m.row1 n.row1 ∧
    Tuple.is_equal m.row2 n.row2 ∧ Tuple.is_equal m.row3 n.row3

/-- From src/matrix.rs `Matrix4Methods::multiply_tuple` (row r dotted with
the tuple). -/
def multiply_tuple (m : Matrix4) (t : Tuple) : Tuple :=
  ⟨m.row0.dot t, m.row1.dot t, m.row2.dot t, m.row3.dot t⟩

/-- From src/matrix.rs `Matrix4Methods::transpose`. -/
def transpose (m : Matrix4) : Matrix4 :=
  ⟨⟨m.row0.x, m.row1.x, m.row2.x, m.row3.x⟩,
   ⟨m.row0.y, m.row1.y, m.row2.y, m.row3.y⟩,
   ⟨m.row0.z, m.row1.z, m.row2.z, m.row3.z⟩,
   ⟨m.row0.w, m.row1.w, m.row2.w, m.row3.w⟩⟩

end Matrix4

/-- Ray, from src/ray.rs (`Ray`). -/
structure Ray where
  origin : Tuple
  direction : Tuple

namespace Ray

/-- From src/ray.rs `Ray::position_at`. -/
def position_at (r : Ray) (t : ℝ) : Tuple := r.origin.add (r.direction.multiply t)

/-- From src/ray.rs `Ray::transform`. -/
def transform (r : Ray) (m : Matrix4) : Ray :=
  ⟨m.multiply_tuple r.origin, m.multiply_tuple r.direction⟩

end Ray

/-- Truncation toward zero, modelling Rust f64 `trunc` (used by the f64 `%`
operator). -/
def f64_trunc (a : ℝ) : ℝ := if 0 ≤ a then (⌊a⌋ : ℝ) else (⌈a⌉ : ℝ)

/-- Rust f64 remainder `a % b` = `a - b * (a / b).trunc()`. -/
def f64_mod (a b : ℝ) : ℝ := a - b * f64_trunc (a / b)

/-- Striped pattern data, from src/pattern.rs (`Striped`). -/
structure Striped where
  color : Color
  other_color : Color
  transform : Matrix4
  inverse_transform : Matrix4

/-- Gradient pattern data, from src/pattern.rs (`Gradient`). -/
structure Gradient where
  color : Color
  other_color : Color
  transform : Matrix4
  inverse_transform : Matrix4

/-- Ring pattern data, from src/pattern.rs (`Ring`). -/
structure Ring where
  color : Color
  other_color : Color
  transform : Matrix4
  inverse_transform : Matrix4

/-- Checker pattern data, from src/pattern.rs (`Checker`). -/
structure Checker where
  color : Color
  other_color : Color
  transform : Matrix4
  inverse_transform : Matrix4

/-- Pattern tagged union, from src/pattern.rs (`Pattern`). -/
inductive Pattern where
  | stripedPattern (s : Striped)
  | gradientPattern (g : Gradient)
  | ringPattern (r : Ring)
  | checkerPattern (c : Checker)

/-- From src/pattern.rs `impl PatternMethods for Striped::color_at`
(`point[0].floor() % 2. == 0.`). -/
def Striped.color_at (s : Striped) (p : Tuple) : Color :=
  if f64_mod (⌊p.x⌋ : ℝ) 2 = 0 then s.color else s.other_color

/-- From src/pattern.rs `impl PatternMethods for Gradient::color_at`. -/
def Gradient.color_at (g : Gradient) (p : Tuple) : Color :=
  let distance := g.other_color.subtract g.color
  let fraction := p.x - (⌊p.x⌋ : ℝ)
  g.color.add (distance.multiply fraction)

/-- From src/pattern.rs `impl PatternMethods for Ring::color_at`. -/
def Ring.color_at (r : Ring) (p : Tuple) : Color :=
  if f64_mod (⌊Real.sqrt (p.x * p.x + p.z * p.z)⌋ : ℝ) 2 = 0 then r.color
  else r.other_color

/-- From src/pattern.rs `impl PatternMethods for Checker::color_at`. -/
def Checker.color_at (c : Checker) (p : Tuple) : Color :=
  if f64_mod ((⌊p.x⌋ : ℝ) + (⌊p.y⌋ : ℝ) + (⌊p.z⌋ : ℝ)) 2 = 0 then c.color
  else c.other_color

/-- From src/pattern.rs `Pattern::get_inverse_transform`. -/
def Pattern.get_inverse_transform : Pattern → Matrix4
  | .stripedPattern s => s.inverse_transform
  | .gradientPattern g => g.inverse_transform
  | .ringPattern r => r.inverse_transform
  | .checkerPattern c => c.inverse_transform

/-- Material coloring, from src/material.rs (`Coloring`). -/
inductive Coloring where
  | solidColor (c : Color)
  | surfacePattern (p : Pattern)

/-- Material, from src/material.rs (`Material`). -/
structure Material where
  color : Coloring
  ambient : ℝ
  diffuse : ℝ
  specular : ℝ
  shininess : ℝ
  reflective : ℝ
  transparency : ℝ
  refractive : ℝ

/-- From src/material.rs `material::DEFAULT_MATERIAL`. -/
def DEFAULT_MATERIAL : Material :=
  { color := .solidColor WHITE
    ambient := 0.1
    diffuse := 0.9
    specular := 0.9
    shininess := 200.0
    reflective := 0.0
    transparency := 0.0
    refractive := 1.0 }

/-- Point light, from src/light.rs (`Light`). -/
structure Light where
  intensity : Color
  position : Tuple

/-- Sphere data, from src/sphere.rs (`Sphere`); the Rust constructor caches
the inverse of `transform` in `inverse_transform`, a leaf numeric-library
step not modelled here, so the embedding carries both fields as the struct
does. -/
structure Sphere where
  transform : Matrix4
  inverse_transform : Matrix4
  material : Material

/-- Plane data, from src/plane.rs (`Plane`). -/
structure Plane where
  transform : Matrix4
  inverse_transform : Matrix4
  material : Material

/-- Cube data, from src/cube.rs (`Cube`). -/
structure Cube where
  transform : Matrix4
  inverse_transform : Matrix4
  material : Material

/-- Cylinder data, from src/cylinder.rs (`Cylinder`). -/
structure Cylinder where
  transform : Matrix4
  inverse_transform : Matrix4
  material : Material
  minimum : ℝ
  maximum : ℝ
  is_closed : Bool

/-- Cone data, from src/cone.rs (`Cone`). -/
structure Cone where
  transform : Matrix4
  inverse_transform : Matrix4
  material : Material
  minimum : ℝ
  maximum : ℝ
  is_closed : Bool

/-- From src/sphere.rs `impl Shape for Sphere::intersect` (quadratic on the
unit sphere, local ray). -/
def Sphere.intersect (_s : Sphere) (local_ray : Ray) : List ℝ :=
  let sphere_to_ray := local_ray.origin.subtract ⟨0, 0, 0, 1⟩
  let a := local_ray.direction.dot local_ray.direction
  let b := 2 * local_ray.direction.dot sphere_to_ray
  let c := sphere_to_ray.dot sphere_to_ray - 1
  let discriminant := b * b - 4 * a * c
  if discriminant < 0 then []
  else if discriminant = 0 then [-b / 2 / a]
  else [(-b - Real.sqrt discriminant) / 2 / a, (-b + Real.sqrt discriminant) / 2 / a]

/-- From src/sphere.rs `impl Shape for Sphere::normal_at`.  The source
treats its argument as a world point: it applies the cached inverse
transform to the argument, subtracts the origin, then applies the
transpose of the inverse, zeroes w and normalizes. -/
def Sphere.normal_at (s : Sphere) (world_point : Tuple) : Tuple :=
  let object_point := s.inverse_transform.multiply_tuple world_point
  let object_normal := object_point.subtract (Tuple.point 0 0 0)
  let world_normal := s.inverse_transform.transpose.multiply_tuple object_normal
  Tuple.normalize ⟨world_normal.x, world_normal.y, world_normal.z, 0⟩

/-- From src/plane.rs `impl Shape for Plane::intersect`. -/
def Plane.intersect (_p : Plane) (local_ray : Ray) : List ℝ :=
  if |local_ray.direction.y| < EPSILON then []
  else [-local_ray.origin.y / local_ray.direction.y]

/-- From src/plane.rs `impl Shape for Plane::normal_at`. -/
def Plane.normal_at (_p : Plane) (_local_point : Tuple) : Tuple :=
  Tuple.vector 0 1 0

/-- From src/cube.rs `check_axis`.  The source falls back to multiplying
the numerators by `f64::INFINITY` when the direction component is below
epsilon; infinities are modelled in `EReal` (the f64 NaN arising from
`0 * INFINITY` is modelled as `(0 : EReal)`). -/
def cube_check_axis (origin direction : ℝ) : EReal × EReal :=
  let tmin_numerator := -1 - origin
  let tmax_numerator := 1 - origin
  let tmin : EReal :=
    if |direction| ≥ EPSILON then ((tmin_numerator / direction : ℝ) : EReal)
    else ((tmin_numerator : ℝ) : EReal) * (⊤ : EReal)
  let tmax : EReal :=
    if |direction| ≥ EPSILON then ((tmax_numerator / direction : ℝ) : EReal)
    else ((tmax_numerator : ℝ) : EReal) * (⊤ : EReal)
  if tmin > tmax then (tmax, tmin) else (tmin, tmax)

/-- From src/cube.rs `impl Shape for Cube::intersect` (slab method); the
returned t values are real, via `EReal.toReal` on the finite results. -/
def Cube.intersect (_c : Cube) (local_ray : Ray) : List ℝ :=
  let xt := cube_check_axis local_ray.origin.x local_ray.direction.x
  let yt := cube_check_axis local_ray.origin.y local_ray.direction.y
  let zt := cube_check_axis local_ray.origin.z local_ray.direction.z
  let tmin := max (max xt.1 yt.1) zt.1
  let tmax := min (min xt.2 yt.2) zt.2
  if tmin > tmax then []
  else [tmin.toReal, tmax.toReal]

/-- From src/cube.rs `impl Shape for Cube::normal_at` (dominant-axis
heuristic, matching the source's epsilon comparisons against the maximal
absolute coordinate). -/
def Cube.normal_at (_c : Cube) (local_point : Tuple) : Tuple :=
  let maxc := max (max |local_point.x| |local_point.y|) |local_point.z|
  if float_is_equal maxc |local_point.x| then Tuple.vector local_point.x 0 0
  else if float_is_equal maxc |local_point.y| then Tuple.vector 0 local_point.y 0
  else Tuple.vector 0 0 local_point.z

/-- From src/cylinder.rs `Cylinder::check_cap` (fixed unit cap radius). -/
def Cylinder.check_cap (_c : Cylinder) (local_ray : Ray) (t : ℝ) : Prop :=
  let x := local_ray.origin.x + t * local_ray.direction.x
  let z := local_ray.origin.z + t * local_ray.direction.z
  x * x + z * z ≤ 1

/-- From src/cylinder.rs `Cylinder::intersect_caps`. -/
def Cylinder.intersect_caps (c : Cylinder) (local_ray : Ray) : List ℝ :=
  if ¬c.is_closed ∨ |local_ray.direction.y| < EPSILON then []
  else
    let t1 := (c.minimum - local_ray.origin.y) / local_ray.direction.y
    let t2 := (c.maximum - local_ray.origin.y) / local_ray.direction.y
    (if c.check_cap local_ray t1 then [t1] else []) ++
      (if c.check_cap local_ray t2 then [t2] else [])

/-- From src/cylinder.rs `Cylinder::intersect_walls`. -/
def Cylinder.intersect_walls (c : Cylinder) (local_ray : Ray) : List ℝ :=
  let a := local_ray.direction.x * local_ray.direction.x +
    local_ray.direction.z * local_ray.direction.z
  if |a| < EPSILON then []
  else
    let b := 2 * local_ray.origin.x * local_ray.direction.x +
      2 * local_ray.origin.z * local_ray.direction.z
    let cc := local_ray.origin.x * local_ray.origin.x +
      local_ray.origin.z * local_ray.origin.z - 1
    let discriminant := b * b - 4 * a * cc
    if discriminant < 0 then []
    else if discriminant = 0 then
      let t := -b / (2 * a)
      let y := local_ray.origin.y + local_ray.direction.y * t
      if c.minimum < y ∧ y < c.maximum then [t] else []
    else
      let t1 := (-b - Real.sqrt discriminant) / (2 * a)
      let t2 := (-b + Real.sqrt discriminant) / (2 * a)
      let y1 := local_ray.origin.y + local_ray.direction.y * t1
      let y2 := local_ray.origin.y + local_ray.direction.y * t2
      (if c.minimum < y1 ∧ y1 < c.maximum then [t1] else []) ++
        (if c.minimum < y2 ∧ y2 < c.maximum then [t2] else [])

/-- From src/cylinder.rs `impl Shape for Cylinder::intersect` (walls then
caps). -/
def Cylinder.intersect (c : Cylinder) (local_ray : Ray) : List ℝ :=
  c.intersect_walls local_ray ++ c.intersect_caps local_ray

/-- From src/cylinder.rs `impl Shape for Cylinder::normal_at`. -/
def Cylinder.normal_at (c : Cylinder) (local_point : Tuple) : Tuple :=
  let distance := local_point.x * local_point.x + local_point.z * local_point.z
  if distance < 1 ∧ local_point.y ≥ c.maximum - EPSILON then Tuple.vector 0 1 0
  else if distance < 1 ∧ local_point.y ≤ c.minimum + EPSILON then Tuple.vector 0 (-1) 0
  else Tuple.vector local_point.x 0 local_point.z

/-- From src/cone.rs `Cone::check_cap`: accepts the cap hit at parameter t
when `x^2 + z^2 <= |y|` at the cap plane (the squared distance is compared
against `|y|` itself). -/
def Cone.check_cap (_c : Cone) (local_ray : Ray) (t y : ℝ) : Prop :=
  let x := local_ray.origin.x + t * local_ray.direction.x
  let z := local_ray.origin.z + t * local_ray.direction.z
  x * x + z * z ≤ |y|

/-- From src/cone.rs `Cone::intersect_caps`. -/
def Cone.intersect_caps (c : Cone) (local_ray : Ray) : List ℝ :=
  if ¬c.is_closed ∨ |local_ray.direction.y| < EPSILON then []
  else
    let t1 := (c.minimum - local_ray.origin.y) / local_ray.direction.y
    let t2 := (c.maximum - local_ray.origin.y) / local_ray.direction.y
    (if c.check_cap local_ray t1 c.minimum then [t1] else []) ++
      (if c.check_cap local_ray t2 c.maximum then [t2] else [])

/-- From src/cone.rs `Cone::intersect_walls` (quadratic on the double cone,
with the linear special case when the leading coefficient vanishes). -/
def Cone.intersect_walls (c : Cone) (local_ray : Ray) : List ℝ :=
  let a := local_ray.direction.x * local_ray.direction.x -
    local_ray.direction.y * local_ray.direction.y +
    local_ray.direction.z * local_ray.direction.z
  let b := 2 * local_ray.origin.x * local_ray.direction.x -
    2 * local_ray.origin.y * local_ray.direction.y +
    2 * local_ray.origin.z * local_ray.direction.z
  let cc := local_ray.origin.x * local_ray.origin.x -
    local_ray.origin.y * local_ray.origin.y +
    local_ray.origin.z * local_ray.origin.z
  if |a| < EPSILON ∧ |b| < EPSILON then []
  else if |a| < EPSILON ∧ |b| > EPSILON then [-cc / 2 / b]
  else
    let discriminant := b * b - 4 * a * cc
    if discriminant < 0 then []
    else if discriminant = 0 then
      let t := -b / (2 * a)
      let y := local_ray.origin.y + local_ray.direction.y * t
      if c.minimum < y ∧ y < c.maximum then [t] else []
    else
      let t1 := (-b - Real.sqrt discriminant) / (2 * a)
      let t2 := (-b + Real.sqrt discriminant) / (2 * a)
      let y1 := local_ray.origin.y + local_ray.direction.y * t1
      let y2 := local_ray.origin.y + local_ray.direction.y * t2
      (if c.minimum < y1 ∧ y1 < c.maximum then [t1] else []) ++
        (if c.minimum < y2 ∧ y2 < c.maximum then [t2] else [])

/-- From src/cone.rs `impl Shape for Cone::intersect`. -/
def Cone.intersect (c : Cone) (local_ray : Ray) : List ℝ :=
  c.intersect_walls local_ray ++ c.intersect_caps local_ray

/-- From src/cone.rs `impl Shape for Cone::normal_at`.  Note the lateral
branch tests `local_point[0] > 0` (the x coordinate) to choose the sign of
the middle component. -/
def Cone.normal_at (c : Cone) (local_point : Tuple) : Tuple :=
  let distance := local_point.x * local_point.x + local_point.z * local_point.z
  if distance < 1 ∧ local_point.y ≥ c.maximum - EPSILON then Tuple.vector 0 1 0
  else if distance < 1 ∧ local_point.y ≤ c.minimum + EPSILON then Tuple.vector 0 (-1) 0
  else if local_point.x > 0 then
    Tuple.vector local_point.x (-Real.sqrt distance) local_point.z
  else Tuple.vector local_point.x (Real.sqrt distance) local_point.z

/-- The shape tagged union, from src/object.rs (`enum Object`): exactly the
four variants of the source — Sphere, Plane, Cube and Cylinder.  (src/cone.rs
defines the `Cone` shape, but `enum Object` has no variant for it.) -/
inductive Object where
  | sphere (s : Sphere)
  | plane (p : Plane)
  | cube (c : Cube)
  | cylinder (c : Cylinder)

/-- Classifier naming the five primitive kinds the specification speaks
about; used only in statements. -/
inductive ShapeKind where
  | sphere
  | plane
  | cube
  | cylinder
  | cone
deriving DecidableEq

namespace Object

/-- The kind of the wrapped primitive. -/
def kind : Object → ShapeKind
  | .sphere _ => .sphere
  | .plane _ => .plane
  | .cube _ => .cube
  | .cylinder _ => .cylinder

/-- From src/object.rs `Object::get_inverse_transform`. -/
def get_inverse_transform : Object → Matrix4
  | .sphere s => s.inverse_transform
  | .plane p => p.inverse_transform
  | .cube c => c.inverse_transform
  | .cylinder c => c.inverse_transform

/-- The forward transform stored in each variant (each Rust struct's
`transform` field); used to state `is_equal` facts. -/
def get_transform : Object → Matrix4
  | .sphere s => s.transform
  | .plane p => p.transform
  | .cube c => c.transform
  | .cylinder c => c.transform

/-- From src/object.rs `Object::get_material`. -/
def get_material : Object → Material
  | .sphere s => s.material
  | .plane p => p.material
  | .cube c => c.material
  | .cylinder c => c.material

/-- From src/object.rs `Object::normal_at`: map the world point to local
space with the cached inverse, take the variant's local normal, map it back
with the transpose of the inverse, clear w and normalize. -/
def normal_at (o : Object) (world_point : Tuple) : Tuple :=
  let local_point := o.get_inverse_transform.multiply_tuple world_point
  let local_normal :=
    match o with
    | .sphere s => s.normal_at local_point
    | .plane p => p.normal_at local_point
    | .cube c => c.normal_at local_point
    | .cylinder c => c.normal_at local_point
  let world_normal := o.get_inverse_transform.transpose.multiply_tuple local_normal
  Tuple.normalize ⟨world_normal.x, world_normal.y, world_normal.z, 0⟩

/-- From src/object.rs `Object::is_equal`: same variant and epsilon-equal
forward transforms; materials and cylinder bounds are not consulted. -/
def is_equal : Object → Object → Prop
  | .sphere s1, .sphere s2 => Matrix4.is_equal s1.transform s2.transform
  | .plane p1, .plane p2 => Matrix4.is_equal p1.transform p2.transform
  | .cube c1, .cube c2 => Matrix4.is_equal c1.transform c2.transform
  | .cylinder c1, .cylinder c2 => Matrix4.is_equal c1.transform c2.transform
  | _, _ => False

end Object

/-- Ray/object hit record, from src/intersection.rs (`Intersection`). -/
structure Intersection where
  t : ℝ
  object : Object

/-- From src/object.rs `Object::intersect`: transform the world ray by the
cached inverse, delegate to the variant's local intersection, and wrap each
returned t with the object. -/
def Object.intersect (o : Object) (world_ray : Ray) : List Intersection :=
  let local_ray := world_ray.transform o.get_inverse_transform
  let ts :=
    match o with
    | .sphere s => s.intersect local_ray
    | .plane p => p.intersect local_ray
    | .cube c => c.intersect local_ray
    | .cylinder c => c.intersect local_ray
  ts.map (fun t => Intersection.mk t o)

/-- Containment-stack removal: drop the first entry whose object is
`is_equal` to the given one, if any; models
`containers.iter().position(..)` followed by `containers.remove(index)` in
src/intersection.rs `refractive_indices_for`. -/
def remove_first_equal : List Intersection → Object → Option (List Intersection)
  | [], _ => none
  | c :: rest, o =>
    if Object.is_equal c.object o then some rest
    else (remove_first_equal rest o).map (fun l => c :: l)

/-- One step of the containment bookkeeping in src/intersection.rs
`refractive_indices_for`: remove the matching entry if present (exiting),
otherwise push the intersection (entering). -/
def refr_toggle (containers : List Intersection) (i : Intersection) : List Intersection :=
  match remove_first_equal containers i.object with
  | some l => l
  | none => containers ++ [i]

/-- Refractive index of the topmost (last-pushed) container, 1.0 when the
containment list is empty; models the two `containers.last()` matches in
src/intersection.rs `refractive_indices_for`. -/
def last_refractive : List Intersection → ℝ
  | [] => 1
  | [c] => c.object.get_material.refractive
  | _ :: rest => last_refractive rest

/-- The loop body of src/intersection.rs `Intersection::refractive_indices_for`,
with the `break` realized by returning at the first element whose t equals
the hit's t. -/
def refr_loop (self_t : ℝ) : List Intersection → List Intersection → ℝ → ℝ → ℝ × ℝ
  | [], _, n1, n2 => (n1, n2)
  | i :: rest, containers, n1, n2 =>
    let n1' := if i.t = self_t then last_refractive containers else n1
    let containers' := refr_toggle containers i
    if i.t = self_t then (n1', last_refractive containers')
    else refr_loop self_t rest containers' n1' n2

/-- From src/intersection.rs `Intersection::refractive_indices_for`. -/
def Intersection.refractive_indices_for (self : Intersection)
    (all_intersections : List Intersection) : ℝ × ℝ :=
  refr_loop self.t all_intersections [] 1 1

/-- Derived per-hit shading state, from src/intersection.rs (`Computations`). -/
structure Computations where
  t : ℝ
  point : Tuple
  eye : Tuple
  normal : Tuple
  reflected : Tuple
  is_inside : Bool
  object : Object
  over_point : Tuple
  under_point : Tuple
  n1 : ℝ
  n2 : ℝ

/-- From src/intersection.rs `Intersection::prepare_computations`. -/
def Intersection.prepare_computations (self : Intersection) (ray : Ray)
    (all_intersections : List Intersection) : Computations :=
  let point := ray.position_at self.t
  let eye := ray.direction.negate
  let normal0 := self.object.normal_at point
  let flipped := Tuple.dot normal0 eye < 0
  let normal := if flipped then normal0.negate else normal0
  let over_point := point.add (normal.multiply EPSILON)
  let under_point := point.subtract (normal.multiply EPSILON)
  let reflected := ray.direction.reflect normal
  let pair := self.refractive_indices_for all_intersections
  { t := self.t
    point := point
    eye := eye
    normal := normal
    reflected := reflected
    is_inside := if flipped then true else false
    object := self.object
    over_point := over_point
    under_point := under_point
    n1 := pair.1
    n2 := pair.2 }

/-- Ascending comparison on t used by both sorts in the source
(`sort_by(|i1, i2| i1.t.partial_cmp(&i2.t).unwrap())` in
src/intersection.rs `hit` and src/world.rs `World::intersect`). -/
def t_le (a b : Intersection) : Prop := a.t ≤ b.t

instance t_le_total : IsTotal Intersection t_le := ⟨fun a b => le_total a.t b.t⟩

instance t_le_trans : IsTrans Intersection t_le :=
  ⟨fun _ _ _ h1 h2 => le_trans h1 h2⟩

/-- Stable ascending sort by t; the Rust `slice::sort_by` is a stable sort
under the same total preorder, so it produces the same list. -/
def sort_by_t (l : List Intersection) : List Intersection :=
  List.insertionSort t_le l

/-- First element with nonnegative t, modelling
`.filter(|i| i.t >= 0.).nth(0)` in src/intersection.rs `hit`. -/
def first_nonneg : List Intersection → Option Intersection
  | [] => none
  | i :: rest => if 0 ≤ i.t then some i else first_nonneg rest

/-- From src/intersection.rs `hit`: sort ascending by t, then return the
first intersection with nonnegative t. -/
def hit (intersections : List Intersection) : Option Intersection :=
  first_nonneg (sort_by_t intersections)

/-- The scene, from src/world.rs (`World`). -/
structure World where
  light : Light
  objects : List Object

/-- From src/world.rs `MAX_RECURSIONS`. -/
def MAX_RECURSIONS : ℕ := 5

/-- From src/world.rs `schlick_reflectance_helper`. -/
def schlick_reflectance_helper (n1 n2 cosine_of_angle : ℝ) : ℝ :=
  let r := (n1 - n2) / (n1 + n2)
  r * r + (1 - r * r) * (1 - cosine_of_angle) ^ (5 : ℕ)

/-- From src/world.rs `schlick_reflectance`. -/
def schlick_reflectance (computations : Computations) : ℝ :=
  let cos_theta_1 := Tuple.dot computations.eye computations.normal
  let n := computations.n1 / computations.n2
  let sin2_theta_1 := n * n * (1 - cos_theta_1 * cos_theta_1)
  let cos_theta_2 := Real.sqrt (1 - sin2_theta_1)
  if computations.n1 > computations.n2 ∧ sin2_theta_1 > 1 then 1
  else if computations.n1 > computations.n2 then
    schlick_reflectance_helper computations.n1 computations.n2 cos_theta_2
  else schlick_reflectance_helper computations.n1 computations.n2 cos_theta_1

/-- From src/material.rs `Material::lighting` effective-color resolution
(the match on `Coloring` followed by the Hadamard with the light
intensity). -/
def Material.effective_color (m : Material) (light : Light) (object : Object)
    (point : Tuple) : Color :=
  let base :=
    match m.color with
    | .solidColor c => c
    | .surfacePattern p =>
      let object_point := object.get_inverse_transform.multiply_tuple point
      let pattern_point := p.get_inverse_transform.multiply_tuple object_point
      match p with
      | .stripedPattern s => s.color_at pattern_point
      | .gradientPattern g => g.color_at pattern_point
      | .ringPattern r => r.color_at pattern_point
      | .checkerPattern c => c.color_at pattern_point
  base.hadamard light.intensity

/-- From src/material.rs `Material::lighting` (Phong local illumination
with the shadow and behind-the-surface cutoffs). -/
def Material.lighting (m : Material) (light : Light) (object : Object)
    (point eye normal : Tuple) (is_shadowed : Bool) : Color :=
  let effective_color := m.effective_color light object point
  let ambient := effective_color.multiply m.ambient
  if is_shadowed = true then ambient
  else
    let light_vector := (light.position.subtract point).normalize
    let light_dot_normal := light_vector.dot normal
    let diffuse :=
      if light_dot_normal < 0 then BLACK
      else effective_color.multiply (m.diffuse * light_dot_normal)
    let specular :=
      if light_dot_normal < 0 then BLACK
      else
        let reflected := light_vector.negate.reflect normal
        let reflected_dot_eye := reflected.dot eye
        if reflected_dot_eye ≤ 0 then BLACK
        else light.intensity.multiply (m.specular * Real.rpow reflected_dot_eye m.shininess)
    (ambient.add diffuse).add specular

namespace World

/-- From src/world.rs `World::intersect`: the union of every object's
intersections, sorted ascending by t. -/
def intersect (w : World) (r : Ray) : List Intersection :=
  sort_by_t ((w.objects.map (fun o => o.intersect r)).flatten)

/-- From src/world.rs `World::is_shadowed`. -/
def is_shadowed (w : World) (point : Tuple) : Prop :=
  let light_to_point := w.light.position.subtract point
  let distance := light_to_point.magnitude
  let direction := light_to_point.normalize
  match hit (w.intersect ⟨point, direction⟩) with
  | some h => h.t < distance
  | none => False

mutual

/-- From src/world.rs `World::reflected_color`: black when the budget is
exhausted or the material is not reflective, otherwise the color of the
reflected ray resolved with budget n, scaled by the reflectivity. -/
def reflected_color (w : World) (computations : Computations) :
    ℕ → Color
  | 0 => BLACK
  | n + 1 =>
    if computations.object.get_material.reflective = 0 then BLACK
    else
      (color_at w ⟨computations.over_point, computations.reflected⟩ n).multiply
        computations.object.get_material.reflective
termination_by n => (n, 0)

/-- From src/world.rs `World::refracted_color`: black when the budget is
exhausted, the material is opaque, or under total internal reflection,
otherwise the color of the Snell-refracted ray resolved with budget n,
scaled by the transparency. -/
def refracted_color (w : World) (computations : Computations) :
    ℕ → Color
  | 0 => BLACK
  | n + 1 =>
    if computations.object.get_material.transparency = 0 then BLACK
    else
      let n_over := computations.n1 / computations.n2
      let cos_theta_i := Tuple.dot computations.eye computations.normal
      let sin2_theta_t := n_over * n_over * (1 - cos_theta_i * cos_theta_i)
      if sin2_theta_t > 1 then BLACK
      else
        let cos_theta_t := Real.sqrt (1 - sin2_theta_t)
        let direction :=
          (computations.normal.multiply (n_over * cos_theta_i - cos_theta_t)).subtract
            (computations.eye.multiply n_over)
        (color_at w ⟨computations.under_point, direction⟩ n).multiply
          computations.object.get_material.transparency
termination_by n => (n, 0)

/-- From src/world.rs `World::shade_hit`: surface Phong color plus the
reflected and refracted contributions, Schlick-blended when the material is
both reflective and transparent. -/
def shade_hit (w : World) (computations : Computations) (remaining : ℕ) : Color :=
  let shadowed := w.is_shadowed computations.over_point
  let material := computations.object.get_material
  let surface_color :=
    material.lighting w.light computations.object computations.point
      computations.eye computations.normal (if shadowed then true else false)
  let reflected := reflected_color w computations remaining
  let refracted := refracted_color w computations remaining
  if material.reflective > 0 ∧ material.transparency > 0 then
    let reflectance := schlick_reflectance computations
    (surface_color.add (reflected.multiply reflectance)).add
      (refracted.multiply (1 - reflectance))
  else (surface_color.add reflected).add refracted
termination_by (remaining, 1)

/-- From src/world.rs `World::color_at`: black when nothing is hit,
otherwise `shade_hit` on the computations prepared from the nearest
nonnegative hit and the full intersection list, with the budget passed
through unchanged. -/
def color_at (w : World) (r : Ray) (remaining : ℕ) : Color :=
  match hit (w.intersect r) with
  | none => BLACK
  | some i => shade_hit w (i.prepare_computations r (w.intersect r)) remaining
termination_by (remaining, 2)

end

end World

/-- From src/transform.rs `transform::translation`. -/
def translation (x y z : ℝ) : Matrix4 :=
  ⟨⟨1, 0, 0, x⟩, ⟨0, 1, 0, y⟩, ⟨0, 0, 1, z⟩, ⟨0, 0, 0, 1⟩⟩

/-- From src/transform.rs `transform::scaling`. -/
def scaling (x y z : ℝ) : Matrix4 :=
  ⟨⟨x, 0, 0, 0⟩, ⟨0, y, 0, 0⟩, ⟨0, 0, z, 0⟩, ⟨0, 0, 0, 1⟩⟩

/-- Containment stack after processing a list of intersections: the spec's
"currently entered objects", obtained by folding the enter/exit toggle over
the list. -/
def stack_after (xs : List Intersection) : List Intersection :=
  xs.foldl refr_toggle []

/-- Outer concentric glass sphere of the refractive-index test scene
(scaling 2, refractive 1.5); the inverse transform is the cached inverse
the Rust constructor computes. -/
def sphereA : Object :=
  .sphere ⟨scaling 2 2 2, scaling (1/2) (1/2) (1/2),
    { DEFAULT_MATERIAL with refractive := 1.5 }⟩

/-- Middle sphere of the refractive-index test scene (translation z -0.25,
refractive 2.0). -/
def sphereB : Object :=
  .sphere ⟨translation 0 0 (-0.25), translation 0 0 0.25,
    { DEFAULT_MATERIAL with refractive := 2.0 }⟩

/-- Inner sphere of the refractive-index test scene (translation z 0.25,
refractive 2.5). -/
def sphereC : Object :=
  .sphere ⟨translation 0 0 0.25, translation 0 0 (-0.25),
    { DEFAULT_MATERIAL with refractive := 2.5 }⟩

/-- The three-concentric-sphere world of the refractive-index test. -/
def tri_world : World :=
  ⟨⟨WHITE, Tuple.point (-10) 10 (-10)⟩, [sphereA, sphereB, sphereC]⟩

/-- The probing ray of the refractive-index test. -/
def tri_ray : Ray := ⟨Tuple.point 0 0 (-4), Tuple.vector 0 0 1⟩

/-- The six ordered intersections of `tri_ray` with `tri_world`. -/
def tri_list : List Intersection :=
  [⟨2, sphereA⟩, ⟨2.75, sphereB⟩, ⟨3.25, sphereC⟩,
   ⟨4.75, sphereB⟩, ⟨5.25, sphereC⟩, ⟨6, sphereA⟩]

/-- A unit glass sphere (transparency 1, refractive 1.5) at the origin. -/
def glass_sphere : Object :=
  .sphere ⟨IDENTITY, IDENTITY,
    { DEFAULT_MATERIAL with transparency := 1.0, refractive := 1.5 }⟩

/-- One-glass-sphere world for the total-internal-reflection test. -/
def glass_world : World := ⟨⟨WHITE, Tuple.point (-10) 10 (-10)⟩, [glass_sphere]⟩

/-- Ray of the total-internal-reflection test: origin (0,0,√2/2) inside the
glass sphere, direction (0,1,0). -/
def tir_ray : Ray := ⟨Tuple.point 0 0 (Real.sqrt 2 / 2), Tuple.vector 0 1 0⟩

/-- Both intersections of `tir_ray` with the glass sphere. -/
def tir_list : List Intersection :=
  [⟨-(Real.sqrt 2 / 2), glass_sphere⟩, ⟨Real.sqrt 2 / 2, glass_sphere⟩]

/-- Computations at the second (exit) intersection of the
total-internal-reflection test. -/
def tir_comps : Computations :=
  (Intersection.mk (Real.sqrt 2 / 2) glass_sphere).prepare_computations tir_ray tir_list

/-- A unit sphere at the origin with the default material. -/
def unit_sphere : Object := .sphere ⟨IDENTITY, IDENTITY, DEFAULT_MATERIAL⟩

/-- A default plane object. -/
def unit_plane : Object := .plane ⟨IDENTITY, IDENTITY, DEFAULT_MATERIAL⟩

/-- A default cube object. -/
def unit_cube : Object := .cube ⟨IDENTITY, IDENTITY, DEFAULT_MATERIAL⟩

/-- A default closed unit cylinder object. -/
def unit_cylinder : Object :=
  .cylinder ⟨IDENTITY, IDENTITY, DEFAULT_MATERIAL, -1, 1, true⟩

/-- Identity-transform sphere with refractive index 1.5 (for the object
identity analysis). -/
def sphere_rA : Object :=
  .sphere ⟨IDENTITY, IDENTITY, { DEFAULT_MATERIAL with refractive := 1.5 }⟩

/-- Identity-transform sphere with refractive index 2.5: same variant and
transform as `sphere_rA`, different material. -/
def sphere_rB : Object :=
  .sphere ⟨IDENTITY, IDENTITY, { DEFAULT_MATERIAL with refractive := 2.5 }⟩

/-- Sphere translated up by one unit, with its cached inverse. -/
def translated_sphere : Sphere :=
  ⟨translation 0 1 0, translation 0 (-1) 0, DEFAULT_MATERIAL⟩

/-- The specification's normal rule for a sphere-bearing object (spec
sections 4.1/4.2): map the world point to local space with the cached
inverse, take local normal = local point minus origin, map back with the
transpose of the inverse, clear w and normalize.  Stated from the spec's
words for comparison with `Object.normal_at`. -/
def sphere_spec_normal (s : Sphere) (world_point : Tuple) : Tuple :=
  let local_point := s.inverse_transform.multiply_tuple world_point
  let local_normal := local_point.subtract (Tuple.point 0 0 0)
  let world_normal := s.inverse_transform.transpose.multiply_tuple local_normal
  Tuple.normalize ⟨world_normal.x, world_normal.y, world_normal.z, 0⟩

/-- The specification's lateral-normal rule for a cone (spec section 4.1):
(x, ∓√(x²+z²), z) with the middle sign opposite the sign of the point's y
coordinate.  Stated from the spec's words for comparison with
`Cone.normal_at`. -/
def cone_spec_lateral_normal (p : Tuple) : Tuple :=
  if p.y > 0 then Tuple.vector p.x (-Real.sqrt (p.x * p.x + p.z * p.z)) p.z
  else Tuple.vector p.x (Real.sqrt (p.x * p.x + p.z * p.z)) p.z

/-- The specification's cone cap acceptance rule: the hit point lies within
a cap radius equal to |y| of the Y axis, i.e. √(x²+z²) ≤ |y|.  Stated from
the spec's words for comparison with `Cone.check_cap`. -/
def cone_spec_cap_cond (local_ray : Ray) (t y : ℝ) : Prop :=
  let x := local_ray.origin.x + t * local_ray.direction.x
  let z := local_ray.origin.z + t * local_ray.direction.z
  Real.sqrt (x * x + z * z) ≤ |y|

/-- A capped test cone spanning y ∈ [-2, 2]. -/
def test_cone : Cone := ⟨IDENTITY, IDENTITY, DEFAULT_MATERIAL, -2, 2, true⟩

/-- A capped cone spanning y ∈ [-4, 4], whose top cap has geometric
radius 4. -/
def big_cone : Cone := ⟨IDENTITY, IDENTITY, DEFAULT_MATERIAL, -4, 4, true⟩

/-- Downward ray aimed at the big cone's top cap, hitting its plane at
(3, 4, 0), i.e. distance 3 from the axis. -/
def big_ray : Ray := ⟨Tuple.point 3 5 0, Tuple.vector 0 (-1) 0⟩

/-- White light in front of the surface at (0,0,-10). -/
def light_front : Light := ⟨WHITE, Tuple.point 0 0 (-10)⟩

/-- White light behind the surface at (0,0,10). -/
def light_behind : Light := ⟨WHITE, Tuple.point 0 0 10⟩

/-- Epsilon equality is reflexive. -/
@[simp] lemma float_is_equal_refl (a : ℝ) : float_is_equal a a := by
  simp only [float_is_equal, sub_self, abs_zero, EPSILON]
  norm_num

/-- Tuple epsilon equality is reflexive. -/
@[simp] lemma tuple_is_equal_refl (t : Tuple) : t.is_equal t :=
  ⟨float_is_equal_refl _, float_is_equal_refl _, float_is_equal_refl _,
    float_is_equal_refl _⟩

/-- Matrix epsilon equality is reflexive. -/
@[simp] lemma matrix_is_equal_refl (m : Matrix4) : m.is_equal m :=
  ⟨tuple_is_equal_refl _, tuple_is_equal_refl _, tuple_is_equal_refl _,
    tuple_is_equal_refl _⟩

/-- C3 counterexample: `Object` has no Cone variant — no Object classifies
as a cone, so the claimed five-variant union (including Cone) does not
describe the code's `enum Object`. -/
theorem object_has_no_cone_variant : ¬ ∃ o : Object, o.kind = ShapeKind.cone := by
  rintro ⟨o, h⟩
  cases o <;> simp [Object.kind] at h

/-- C3 (amended): `Object` is a tagged union over exactly the four
variants Sphere, Plane, Cube, Cylinder(min,max,closed) — each realized by
some Object, with ray-intersection and normal queries dispatched to the
wrapped primitive — while Cone(min,max,closed) has local intersection
(walls plus caps) and normal functions of its own but no Object variant. -/
theorem object_four_variants :
    (∀ o : Object, o.kind = ShapeKind.sphere ∨ o.kind = ShapeKind.plane ∨
      o.kind = ShapeKind.cube ∨ o.kind = ShapeKind.cylinder) ∧
    (∃ o : Object, o.kind = ShapeKind.sphere) ∧
    (∃ o : Object, o.kind = ShapeKind.plane) ∧
    (∃ o : Object, o.kind = ShapeKind.cube) ∧
    (∃ o : Object, o.kind = ShapeKind.cylinder) ∧
    (∀ (s : Sphere) (r : Ray),
      (Object.sphere s).intersect r =
        (s.intersect (r.transform s.inverse_transform)).map
          (fun t => ⟨t, Object.sphere s⟩)) ∧
    (∀ (p : Plane) (r : Ray),
      (Object.plane p).intersect r =
        (p.intersect (r.transform p.inverse_transform)).map
          (fun t => ⟨t, Object.plane p⟩)) ∧
    (∀ (c : Cube) (r : Ray),
      (Object.cube c).intersect r =
        (c.intersect (r.transform c.inverse_transform)).map
          (fun t => ⟨t, Object.cube c⟩)) ∧
    (∀ (c : Cylinder) (r : Ray),
      (Object.cylinder c).intersect r =
        (c.intersect (r.transform c.inverse_transform)).map
          (fun t => ⟨t, Object.cylinder c⟩)) ∧
    (∀ (s : Sphere) (p : Tuple),
      (Object.sphere s).normal_at p =
        (let wn := s.inverse_transform.transpose.multiply_tuple
          (s.normal_at (s.inverse_transform.multiply_tuple p))
         Tuple.normalize ⟨wn.x, wn.y, wn.z, 0⟩)) ∧
    (∀ (pl : Plane) (p : Tuple),
      (Object.plane pl).normal_at p =
        (let wn := pl.inverse_transform.transpose.multiply_tuple
          (pl.normal_at (pl.inverse_transform.multiply_tuple p))
         Tuple.normalize ⟨wn.x, wn.y, wn.z, 0⟩)) ∧
    (∀ (c : Cube) (p : Tuple),
      (Object.cube c).normal_at p =
        (let wn := c.inverse_transform.transpose.multiply_tuple
          (c.normal_at (c.inverse_transform.multiply_tuple p))
         Tuple.normalize ⟨wn.x, wn.y, wn.z, 0⟩)) ∧
    (∀ (c : Cylinder) (p : Tuple),
      (Object.cylinder c).normal_at p =
        (let wn := c.inverse_transform.transpose.multiply_tuple
          (c.normal_at (c.inverse_transform.multiply_tuple p))
         Tuple.normalize ⟨wn.x, wn.y, wn.z, 0⟩)) ∧
    (∀ (c : Cone) (r : Ray),
      c.intersect r = c.intersect_walls r ++ c.intersect_caps r) := by
  refine ⟨?_, ⟨unit_sphere, rfl⟩, ⟨unit_plane, rfl⟩, ⟨unit_cube, rfl⟩,
    ⟨unit_cylinder, rfl⟩, fun _ _ => rfl, fun _ _ => rfl, fun _ _ => rfl,
    fun _ _ => rfl, fun _ _ => rfl, fun _ _ => rfl, fun _ _ => rfl,
    fun _ _ => rfl, fun _ _ => rfl⟩
  intro o
  cases o <;> simp [Object.kind]

/-- C10: object equality holds exactly when the two objects are the same
shape variant with epsilon-equal forward transforms; materials are never
consulted, and for cylinders the minimum, maximum and is_closed fields are
ignored as well, so the refractive containment stack removes an entry for
any same-variant object sharing the transform — two identity spheres with
refractive indices 1.5 and 2.5 are conflated, giving (n1, n2) = (1.5, 1)
where distinct identities would give (1.5, 2.5). -/
theorem object_is_equal_transform_only :
    (∀ a b : Object, a.is_equal b ↔
      (a.kind = b.kind ∧ a.get_transform.is_equal b.get_transform)) ∧
    (∀ (t ti ti' : Matrix4) (m m' : Material),
      (Object.sphere ⟨t, ti, m⟩).is_equal (Object.sphere ⟨t, ti', m'⟩)) ∧
    (∀ (t ti ti' : Matrix4) (m m' : Material) (mn mx mn' mx' : ℝ) (b b' : Bool),
      (Object.cylinder ⟨t, ti, m, mn, mx, b⟩).is_equal
        (Object.cylinder ⟨t, ti', m', mn', mx', b'⟩)) ∧
    Intersection.refractive_indices_for ⟨2, sphere_rB⟩
      [⟨1, sphere_rA⟩, ⟨2, sphere_rB⟩] = (1.5, 1) := by
  refine ⟨?_, ?_, ?_, ?_⟩
  · intro a b
    cases a <;> cases b <;>
      simp [Object.is_equal, Object.kind, Object.get_transform]
  · intro t ti ti' m m'
    simp [Object.is_equal]
  · intro t ti ti' m m' mn mx mn' mx' b b'
    simp [Object.is_equal]
  · norm_num [Intersection.refractive_indices_for, refr_loop, refr_toggle,
      remove_first_equal, last_refractive, sphere_rA, sphere_rB,
      Object.is_equal, Object.get_material]

/-- C4: the recursive color resolution is well-founded on the depth budget
alone: with budget 0 the reflected and refracted contributions are black
without any recursive call; with budget n+1 they recurse into `color_at`
with exactly budget n; and `color_at` and `shade_hit` pass the budget
through unchanged, so every cycle of the mutual recursion strictly
decreases the budget, independent of scene geometry. -/
theorem color_at_budget_recursion :
    (∀ (w : World) (c : Computations), World.reflected_color w c 0 = BLACK) ∧
    (∀ (w : World) (c : Computations), World.refracted_color w c 0 = BLACK) ∧
    (∀ (w : World) (c : Computations) (n : ℕ),
      World.reflected_color w c (n + 1) =
        if c.object.get_material.reflective = 0 then BLACK
        else (World.color_at w ⟨c.over_point, c.reflected⟩ n).multiply
          c.object.get_material.reflective) ∧
    (∀ (w : World) (c : Computations) (n : ℕ),
      World.refracted_color w c (n + 1) =
        if c.object.get_material.transparency = 0 then BLACK
        else
          let n_over := c.n1 / c.n2
          let cos_theta_i := Tuple.dot c.eye c.normal
          let sin2_theta_t := n_over * n_over * (1 - cos_theta_i * cos_theta_i)
          if sin2_theta_t > 1 then BLACK
          else
            (World.color_at w ⟨c.under_point,
              (c.normal.multiply (n_over * cos_theta_i -
                Real.sqrt (1 - sin2_theta_t))).subtract
                (c.eye.multiply n_over)⟩ n).multiply
              c.object.get_material.transparency) ∧
    (∀ (w : World) (c : Computations) (n : ℕ),
      World.shade_hit w c n =
        (let surface_color :=
          c.object.get_material.lighting w.light c.object c.point c.eye
            c.normal (if w.is_shadowed c.over_point then true else false)
         if c.object.get_material.reflective > 0 ∧
             c.object.get_material.transparency > 0 then
           (surface_color.add
             ((World.reflected_color w c n).multiply (schlick_reflectance c))).add
             ((World.refracted_color w c n).multiply (1 - schlick_reflectance c))
         else (surface_color.add (World.reflected_color w c n)).add
           (World.refracted_color w c n))) ∧
    (∀ (w : World) (r : Ray) (n : ℕ),
      World.color_at w r n =
        match hit (w.intersect r) with
        | none => BLACK
        | some i => World.shade_hit w (i.prepare_computations r (w.intersect r)) n) := by
  refine ⟨fun w c => ?_, fun w c => ?_, fun w c n => ?_, fun w c n => ?_,
    fun w c n => ?_, fun w r n => ?_⟩
  · rw [World.reflected_color]
  · rw [World.refracted_color]
  · rw [World.reflected_color]
  · rw [World.refracted_color]
  · rw [World.shade_hit]
  · rw [World.color_at]

/-- Helper for C6: on a list sorted ascending by t, `first_nonneg` returns
a member with minimal nonnegative t, and returns none exactly when every
t is negative. -/
lemma first_nonneg_sorted_spec :
    ∀ l : List Intersection, l.Sorted t_le →
      (∀ i, first_nonneg l = some i →
        i ∈ l ∧ 0 ≤ i.t ∧ ∀ j ∈ l, 0 ≤ j.t → i.t ≤ j.t) ∧
      (first_nonneg l = none ↔ ∀ i ∈ l, i.t < 0) := by
  intro l
  induction l with
  | nil =>
    intro _
    constructor
    · intro i h
      simp [first_nonneg] at h
    · simp [first_nonneg]
  | cons a l ih =>
    intro hs
    rw [List.sorted_cons] at hs
    obtain ⟨ha, hl⟩ := hs
    by_cases h0 : 0 ≤ a.t
    · constructor
      · intro i hi
        simp only [first_nonneg, if_pos h0, Option.some.injEq] at hi
        subst hi
        refine ⟨List.mem_cons_self a l, h0, ?_⟩
        intro j hj _
        rcases List.mem_cons.mp hj with h | h
        · rw [h]
        · exact ha j h
      · refine iff_of_false (by simp [first_nonneg, if_pos h0]) ?_
        intro hall
        exact absurd (hall a (List.mem_cons_self a l)) (not_lt.mpr h0)
    · have h0' : a.t < 0 := not_le.mp h0
      have ih' := ih hl
      constructor
      · intro i hi
        simp only [first_nonneg, if_neg h0] at hi
        obtain ⟨hm, hnn, hmin⟩ := ih'.1 i hi
        refine ⟨List.mem_cons_of_mem _ hm, hnn, ?_⟩
        intro j hj hjnn
        rcases List.mem_cons.mp hj with h | h
        · rw [h] at hjnn
          exact absurd hjnn (not_le.mpr h0')
        · exact hmin j h hjnn
      · simp only [first_nonneg, if_neg h0]
        rw [ih'.2]
        constructor
        · intro h i hi
          rcases List.mem_cons.mp hi with hh | hh
          · rw [hh]; exact h0'
          · exact h i hh
        · intro h i hi
          exact h i (List.mem_cons_of_mem _ hi)

/-- C6: `hit` sorts ascending by t and returns the first intersection with
nonnegative t (a member of the input with minimal nonnegative t), or none
exactly when every t is negative; on t values {5, 7, -3, 2} against a
common object it returns the one with t = 2. -/
theorem hit_first_nonnegative :
    (∀ (l : List Intersection) (i : Intersection), hit l = some i →
      i ∈ l ∧ 0 ≤ i.t ∧ ∀ j ∈ l, 0 ≤ j.t → i.t ≤ j.t) ∧
    (∀ l : List Intersection, (hit l = none ↔ ∀ i ∈ l, i.t < 0)) ∧
    hit [⟨5, unit_sphere⟩, ⟨7, unit_sphere⟩, ⟨-3, unit_sphere⟩, ⟨2, unit_sphere⟩] =
      some ⟨2, unit_sphere⟩ := by
  have sorted : ∀ l : List Intersection, (sort_by_t l).Sorted t_le := fun l =>
    List.sorted_insertionSort t_le l
  have perm : ∀ l : List Intersection, (sort_by_t l).Perm l := fun l =>
    List.perm_insertionSort t_le l
  refine ⟨?_, ?_, ?_⟩
  · intro l i hi
    obtain ⟨hm, h0, hmin⟩ := (first_nonneg_sorted_spec _ (sorted l)).1 i hi
    exact ⟨(perm l).mem_iff.mp hm, h0,
      fun j hj hj0 => hmin j ((perm l).mem_iff.mpr hj) hj0⟩
  · intro l
    rw [hit, (first_nonneg_sorted_spec _ (sorted l)).2]
    constructor
    · intro h i hi
      exact h i ((perm l).mem_iff.mpr hi)
    · intro h i hi
      exact h i ((perm l).mem_iff.mp hi)
  · norm_num [hit, sort_by_t, List.insertionSort, List.orderedInsert, t_le,
      first_nonneg]

/-- C6 witness: the theorem applied to the singleton list with t = -1
yields no hit. -/
theorem hit_first_nonnegative_witness : hit [⟨-1, unit_sphere⟩] = none := by
  refine (hit_first_nonnegative.2.1 _).mpr ?_
  intro i hi
  rw [List.mem_singleton] at hi
  rw [hi]
  norm_num

/-- Square root of 100 is 10. -/
lemma sqrt_hundred : Real.sqrt 100 = 10 := by
  rw [show (100 : ℝ) = 10 ^ 2 by norm_num]
  exact Real.sqrt_sq (by norm_num)

/-- Square root of 9 is 3. -/
lemma sqrt_nine : Real.sqrt 9 = 3 := by
  rw [show (9 : ℝ) = 3 ^ 2 by norm_num]
  exact Real.sqrt_sq (by norm_num)

/-- Square root of 4 is 2. -/
lemma sqrt_four : Real.sqrt 4 = 2 := by
  rw [show (4 : ℝ) = 2 ^ 2 by norm_num]
  exact Real.sqrt_sq (by norm_num)

/-- C8 evaluation at the failing lateral point (1,-1,0) (a point of the
lower nappe, distance 1 from the axis so no cap branch applies for any
bounds): the code chooses the middle sign from the x coordinate and
returns (1,-1,0), while the specification's opposite-of-y rule gives
(1,1,0) — the gradient of x²-y²+z², i.e. the true surface normal
direction; the two disagree.  The cap behavior matches the claim: at
(0,2,0) the normal is (0,1,0) and at (0,-2,0) it is (0,-1,0). -/
theorem cone_normal_lateral_sign :
    Cone.normal_at test_cone (Tuple.point 1 (-1) 0) = Tuple.vector 1 (-1) 0 ∧
    cone_spec_lateral_normal (Tuple.point 1 (-1) 0) = Tuple.vector 1 1 0 ∧
    Cone.normal_at test_cone (Tuple.point 1 (-1) 0) ≠
      cone_spec_lateral_normal (Tuple.point 1 (-1) 0) ∧
    Cone.normal_at test_cone (Tuple.point 0 2 0) = Tuple.vector 0 1 0 ∧
    Cone.normal_at test_cone (Tuple.point 0 (-2) 0) = Tuple.vector 0 (-1) 0 := by
  have h1 : Cone.normal_at test_cone (Tuple.point 1 (-1) 0) = Tuple.vector 1 (-1) 0 := by
    norm_num [Cone.normal_at, test_cone, Tuple.point, Tuple.vector, EPSILON,
      Real.sqrt_one]
  have h2 : cone_spec_lateral_normal (Tuple.point 1 (-1) 0) = Tuple.vector 1 1 0 := by
    norm_num [cone_spec_lateral_normal, Tuple.point, Tuple.vector, Real.sqrt_one]
  refine ⟨h1, h2, ?_, ?_, ?_⟩
  · rw [h1, h2]
    intro h
    have := congrArg Tuple.y h
    norm_num [Tuple.vector] at this
  · norm_num [Cone.normal_at, test_cone, Tuple.point, Tuple.vector, EPSILON]
  · norm_num [Cone.normal_at, test_cone, Tuple.point, Tuple.vector, EPSILON]

/-- C9 evaluation at the failing input: the ray (3,5,0) ↓ meets the plane
of the big cone's top cap (y = 4, geometric radius 4) at (3,4,0), distance
3 ≤ 4 from the axis, so the claim (and the code's own comment, "within a
radius y from the y axis") accepts it; but `check_cap` compares the squared
distance against |y| (9 ≤ 4 fails), so the code rejects both caps and
returns no cap intersections. -/
theorem cone_cap_radius_check_rejects_inside_point :
    Cone.intersect_caps big_cone big_ray = [] ∧
    cone_spec_cap_cond big_ray 1 big_cone.maximum ∧
    ¬ Cone.check_cap big_cone big_ray 1 big_cone.maximum := by
  refine ⟨?_, ?_, ?_⟩
  · norm_num [Cone.intersect_caps, Cone.check_cap, big_cone, big_ray,
      Tuple.point, Tuple.vector, EPSILON]
  · norm_num [cone_spec_cap_cond, big_cone, big_ray, Tuple.point, Tuple.vector,
      sqrt_nine]
  · norm_num [Cone.check_cap, big_cone, big_ray, Tuple.point, Tuple.vector]

/-- C7: `Material.lighting` returns only the ambient term (effective color
Hadamard light intensity, scaled by the ambient coefficient) whenever the
shadow flag is set, and likewise collapses to the ambient term whenever
the light is behind the surface (light direction dotted with the normal is
negative); with the default material, the eye between a white light at
(0,0,-10) and the surface with normal (0,0,-1) it returns (1.9,1.9,1.9),
and with the light behind at (0,0,10) it returns (0.1,0.1,0.1). -/
theorem lighting_shadow_and_behind :
    (∀ (m : Material) (light : Light) (o : Object) (point eye normal : Tuple),
      m.lighting light o point eye normal true =
        (m.effective_color light o point).multiply m.ambient) ∧
    (∀ (m : Material) (light : Light) (o : Object) (point eye normal : Tuple),
      Tuple.dot ((light.position.subtract point).normalize) normal < 0 →
      m.lighting light o point eye normal false =
        (m.effective_color light o point).multiply m.ambient) ∧
    DEFAULT_MATERIAL.lighting light_front unit_sphere (Tuple.point 0 0 0)
      (Tuple.vector 0 0 (-1)) (Tuple.vector 0 0 (-1)) false =
      ⟨1.9, 1.9, 1.9⟩ ∧
    DEFAULT_MATERIAL.lighting light_behind unit_sphere (Tuple.point 0 0 0)
      (Tuple.vector 0 0 (-1)) (Tuple.vector 0 0 (-1)) false =
      ⟨0.1, 0.1, 0.1⟩ := by
  refine ⟨?_, ?_, ?_, ?_⟩
  · intro m light o point eye normal
    simp [Material.lighting]
  · intro m light o point eye normal hneg
    simp only [Material.lighting, if_neg (by simp : ¬(false = true)), if_pos hneg]
    simp [Color.add, BLACK]
  · norm_num [Material.lighting, Material.effective_color, DEFAULT_MATERIAL,
      light_front, unit_sphere, WHITE, BLACK, Color.hadamard, Color.multiply,
      Color.add, Tuple.point, Tuple.vector, Tuple.subtract, Tuple.normalize,
      Tuple.divide, Tuple.magnitude, Tuple.dot, Tuple.negate, Tuple.reflect,
      Tuple.multiply, Real.one_rpow, sqrt_hundred]
  · norm_num [Material.lighting, Material.effective_color, DEFAULT_MATERIAL,
      light_behind, unit_sphere, WHITE, BLACK, Color.hadamard, Color.multiply,
      Color.add, Tuple.point, Tuple.vector, Tuple.subtract, Tuple.normalize,
      Tuple.divide, Tuple.magnitude, Tuple.dot, Tuple.negate, Tuple.reflect,
      Tuple.multiply, sqrt_hundred]

/-- C7 witness: the behind-the-light case of the theorem applied to the
default material with the white light at (0,0,10). -/
theorem lighting_shadow_and_behind_witness :
    DEFAULT_MATERIAL.lighting light_behind unit_sphere (Tuple.point 0 0 0)
      (Tuple.vector 0 0 (-1)) (Tuple.vector 0 0 (-1)) false =
      (DEFAULT_MATERIAL.effective_color light_behind unit_sphere
        (Tuple.point 0 0 0)).multiply DEFAULT_MATERIAL.ambient := by
  refine lighting_shadow_and_behind.2.1 _ _ _ _ _ _ ?_
  norm_num [light_behind, Tuple.point, Tuple.vector, Tuple.subtract,
    Tuple.normalize, Tuple.divide, Tuple.magnitude, Tuple.dot, sqrt_hundred]

/-- The square root of two is positive. -/
lemma sqrt_two_pos : 0 < Real.sqrt 2 := Real.sqrt_pos.mpr (by norm_num)

/-- The square root of two squares to two. -/
lemma sqrt_two_mul_self : Real.sqrt 2 * Real.sqrt 2 = 2 :=
  Real.mul_self_sqrt (by norm_num)

/-- The inverse square root of two squares to a half. -/
lemma inv_sqrt_two_mul_self : (Real.sqrt 2)⁻¹ * (Real.sqrt 2)⁻¹ = 1 / 2 := by
  rw [← mul_inv, sqrt_two_mul_self]
  norm_num

/-- The identity matrix acts as the identity on tuples. -/
lemma IDENTITY_multiply_tuple (t : Tuple) : IDENTITY.multiply_tuple t = t := by
  cases t
  simp [IDENTITY, Matrix4.multiply_tuple, Tuple.dot]

/-- The identity matrix is its own transpose. -/
lemma IDENTITY_transpose : IDENTITY.transpose = IDENTITY := rfl

/-- C2 evaluation at the failing input: for the sphere translated up by one
unit and the surface point (1,1,0), `Object::normal_at` returns
(1/√2, -1/√2, 0) while the specified rule
normalize(clear_w((M⁻¹)ᵀ·(M⁻¹p − origin))) gives (1,0,0): `Sphere::normal_at`
treats its argument as a world point and applies the cached inverse and
inverse-transpose again, so the inverse transform is applied twice. -/
theorem sphere_normal_double_transform :
    Object.normal_at (Object.sphere translated_sphere) (Tuple.point 1 1 0) =
      ⟨(Real.sqrt 2)⁻¹, -(Real.sqrt 2)⁻¹, 0, 0⟩ ∧
    sphere_spec_normal translated_sphere (Tuple.point 1 1 0) = ⟨1, 0, 0, 0⟩ ∧
    Object.normal_at (Object.sphere translated_sphere) (Tuple.point 1 1 0) ≠
      sphere_spec_normal translated_sphere (Tuple.point 1 1 0) := by
  have hinner : Sphere.normal_at
      ⟨translation 0 1 0, translation 0 (-1) 0, DEFAULT_MATERIAL⟩
      ⟨1, 0, 0, 1⟩ = ⟨(Real.sqrt 2)⁻¹, -(Real.sqrt 2)⁻¹, 0, 0⟩ := by
    simp only [Sphere.normal_at, translation, Matrix4.multiply_tuple,
      Matrix4.transpose, Tuple.dot, Tuple.point, Tuple.subtract,
      Tuple.normalize, Tuple.divide, Tuple.magnitude]
    norm_num [Tuple.mk.injEq, div_eq_inv_mul]
  have hcode : Object.normal_at (Object.sphere translated_sphere)
      (Tuple.point 1 1 0) = ⟨(Real.sqrt 2)⁻¹, -(Real.sqrt 2)⁻¹, 0, 0⟩ := by
    have hlocal : Matrix4.multiply_tuple (translation 0 (-1) 0)
        (Tuple.point 1 1 0) = ⟨1, 0, 0, 1⟩ := by
      simp [translation, Matrix4.multiply_tuple, Tuple.dot, Tuple.point]
    simp only [Object.normal_at, Object.get_inverse_transform,
      translated_sphere, hlocal, hinner]
    simp only [translation, Matrix4.multiply_tuple, Matrix4.transpose,
      Tuple.dot, Tuple.normalize, Tuple.divide, Tuple.magnitude]
    norm_num [inv_sqrt_two_mul_self, Tuple.mk.injEq]
  have hspec : sphere_spec_normal translated_sphere (Tuple.point 1 1 0) =
      ⟨1, 0, 0, 0⟩ := by
    simp only [sphere_spec_normal, translated_sphere, translation,
      Matrix4.multiply_tuple, Matrix4.transpose, Tuple.dot, Tuple.point,
      Tuple.subtract, Tuple.normalize, Tuple.divide, Tuple.magnitude]
    norm_num [Tuple.mk.injEq]
  refine ⟨hcode, hspec, ?_⟩
  rw [hcode, hspec]
  intro h
  have hy := congrArg Tuple.y h
  simp only at hy
  have : (Real.sqrt 2)⁻¹ = 0 := by linarith [hy]
  rw [inv_eq_zero] at this
  exact absurd this (ne_of_gt sqrt_two_pos)

/-- C5: under total internal reflection — n1 > n2 and
sin²θt = (n1/n2)²·(1 − cos²θi) > 1 with cosθi = eye·normal —
`refracted_color` returns black at every depth budget and
`schlick_reflectance` returns exactly 1; both results are the exact
constants, so no not-a-number value is produced. -/
theorem tir_refracted_black_schlick_one :
    ∀ (w : World) (c : Computations) (n : ℕ),
      c.n1 > c.n2 →
      (c.n1 / c.n2) * (c.n1 / c.n2) *
        (1 - Tuple.dot c.eye c.normal * Tuple.dot c.eye c.normal) > 1 →
      World.refracted_color w c n = BLACK ∧ schlick_reflectance c = 1 := by
  intro w c n h1 h2
  constructor
  · match n with
    | 0 => rw [World.refracted_color]
    | n + 1 =>
      rw [World.refracted_color]
      by_cases ht : c.object.get_material.transparency = 0
      · rw [if_pos ht]
      · rw [if_neg ht]
        rw [if_pos h2]
  · rw [schlick_reflectance]
    rw [if_pos ⟨h1, h2⟩]

/-- Half the square root of two squares to a half. -/
lemma half_sqrt_two_mul_self : Real.sqrt 2 / 2 * (Real.sqrt 2 / 2) = 1 / 2 := by
  rw [div_mul_div_comm, sqrt_two_mul_self]
  norm_num

/-- Negative and positive √2/2 differ. -/
lemma neg_half_sqrt_two_ne : ¬(-(Real.sqrt 2 / 2) = Real.sqrt 2 / 2) := by
  intro h
  have : Real.sqrt 2 = 0 := by linarith
  exact absurd this (ne_of_gt sqrt_two_pos)

/-- Position of the total-internal-reflection ray at t = √2/2. -/
lemma tir_point_eval : Ray.position_at tir_ray (Real.sqrt 2 / 2) =
    ⟨0, Real.sqrt 2 / 2, Real.sqrt 2 / 2, 1⟩ := by
  simp [Ray.position_at, tir_ray, Tuple.point, Tuple.vector, Tuple.add,
    Tuple.multiply]

/-- The glass sphere's world normal at (0, √2/2, √2/2). -/
lemma tir_normal_eval : Object.normal_at glass_sphere
    ⟨0, Real.sqrt 2 / 2, Real.sqrt 2 / 2, 1⟩ =
    ⟨0, Real.sqrt 2 / 2, Real.sqrt 2 / 2, 0⟩ := by
  simp only [Object.normal_at, Object.get_inverse_transform, glass_sphere,
    IDENTITY_transpose, IDENTITY_multiply_tuple, Sphere.normal_at,
    Tuple.subtract, Tuple.point, Tuple.normalize, Tuple.divide,
    Tuple.magnitude]
  norm_num [half_sqrt_two_mul_self, Tuple.mk.injEq]

/-- The refractive pair at the exit hit of the total-internal-reflection
test is (1.5, 1). -/
lemma tir_refr_eval : Intersection.refractive_indices_for
    ⟨Real.sqrt 2 / 2, glass_sphere⟩ tir_list = (1.5, 1) := by
  norm_num [Intersection.refractive_indices_for, refr_loop, refr_toggle,
    remove_first_equal, last_refractive, tir_list, neg_half_sqrt_two_ne,
    Object.is_equal, glass_sphere, Object.get_material, DEFAULT_MATERIAL]

/-- First refractive index of the total-internal-reflection computations. -/
lemma tir_n1_eval : tir_comps.n1 = 1.5 := by
  rw [show tir_comps = Intersection.prepare_computations
    ⟨Real.sqrt 2 / 2, glass_sphere⟩ tir_ray tir_list from rfl]
  simp only [Intersection.prepare_computations]
  rw [tir_refr_eval]

/-- Second refractive index of the total-internal-reflection computations. -/
lemma tir_n2_eval : tir_comps.n2 = 1 := by
  rw [show tir_comps = Intersection.prepare_computations
    ⟨Real.sqrt 2 / 2, glass_sphere⟩ tir_ray tir_list from rfl]
  simp only [Intersection.prepare_computations]
  rw [tir_refr_eval]

/-- Eye vector of the total-internal-reflection computations. -/
lemma tir_eye_eval : tir_comps.eye = ⟨0, -1, 0, 0⟩ := by
  rw [show tir_comps = Intersection.prepare_computations
    ⟨Real.sqrt 2 / 2, glass_sphere⟩ tir_ray tir_list from rfl]
  simp [Intersection.prepare_computations, tir_ray, Tuple.vector, Tuple.negate]

/-- Normal vector of the total-internal-reflection computations: the
geometric normal flipped to face the eye, the hit being on the inside. -/
lemma tir_normal_flipped_eval : tir_comps.normal =
    ⟨0, -(Real.sqrt 2 / 2), -(Real.sqrt 2 / 2), 0⟩ := by
  rw [show tir_comps = Intersection.prepare_computations
    ⟨Real.sqrt 2 / 2, glass_sphere⟩ tir_ray tir_list from rfl]
  simp only [Intersection.prepare_computations, tir_point_eval, tir_normal_eval]
  rw [if_pos]
  · simp [Tuple.negate]
  · simp only [tir_ray, Tuple.vector, Tuple.negate, Tuple.dot]
    nlinarith [sqrt_two_pos]

/-- C5 witness: on the glass sphere (refractive 1.5) hit from the inside in
the total-internal-reflection configuration, the theorem's hypotheses hold
(n1 = 1.5 > n2 = 1, sin²θt = 1.125 > 1), the refracted color is black and
the Schlick reflectance is exactly 1. -/
theorem tir_refracted_black_schlick_one_witness :
    tir_comps.n1 > tir_comps.n2 ∧
    World.refracted_color glass_world tir_comps MAX_RECURSIONS = BLACK ∧
    schlick_reflectance tir_comps = 1 := by
  have hdot : Tuple.dot tir_comps.eye tir_comps.normal = Real.sqrt 2 / 2 := by
    rw [tir_eye_eval, tir_normal_flipped_eval]
    simp [Tuple.dot]
  have h1 : tir_comps.n1 > tir_comps.n2 := by
    rw [tir_n1_eval, tir_n2_eval]
    norm_num
  have h2 : (tir_comps.n1 / tir_comps.n2) * (tir_comps.n1 / tir_comps.n2) *
      (1 - Tuple.dot tir_comps.eye tir_comps.normal *
        Tuple.dot tir_comps.eye tir_comps.normal) > 1 := by
    rw [tir_n1_eval, tir_n2_eval, hdot, half_sqrt_two_mul_self]
    norm_num
  obtain ⟨hb, hs⟩ :=
    tir_refracted_black_schlick_one glass_world tir_comps MAX_RECURSIONS h1 h2
  exact ⟨h1, hb, hs⟩

/-- Helper for C1: running the loop of `refractive_indices_for` from an
arbitrary accumulated containment list, when position k holds the first
element whose t equals the hit's t, returns n1 = topmost refractive index
of the stack folded over the prefix before k and n2 = the same after
toggling the element at k. -/
lemma refr_loop_prefix :
    ∀ (l : List Intersection) (k : ℕ) (acc : List Intersection)
      (n1 n2 self_t : ℝ) (hk : k < l.length),
      (l.get ⟨k, hk⟩).t = self_t →
      (∀ j ∈ l.take k, j.t ≠ self_t) →
      refr_loop self_t l acc n1 n2 =
        (last_refractive (List.foldl refr_toggle acc (l.take k)),
         last_refractive (refr_toggle (List.foldl refr_toggle acc (l.take k))
           (l.get ⟨k, hk⟩))) := by
  intro l
  induction l with
  | nil =>
    intro k acc n1 n2 self_t hk
    exact absurd hk (by simp)
  | cons i rest ih =>
    intro k acc n1 n2 self_t hk hget hpre
    match k with
    | 0 =>
      have hget0 : i.t = self_t := by simpa using hget
      rw [refr_loop]
      simp only [if_pos hget0]
      simp [List.get]
    | k + 1 =>
      have hne : i.t ≠ self_t := hpre i (by simp)
      have hk' : k < rest.length := by simpa using hk
      have hget' : (rest.get ⟨k, hk'⟩).t = self_t := by simpa using hget
      have hpre' : ∀ j ∈ rest.take k, j.t ≠ self_t := fun j hj =>
        hpre j (by simp [hj])
      rw [refr_loop]
      simp only [if_neg hne]
      rw [ih k (refr_toggle acc i) n1 n2 self_t hk' hget' hpre']
      simp

/-- Sphere A's refractive index is 1.5. -/
lemma sphereA_refr : sphereA.get_material.refractive = 1.5 := rfl

/-- Sphere B's refractive index is 2. -/
lemma sphereB_refr : sphereB.get_material.refractive = 2 := by
  norm_num [sphereB, Object.get_material]

/-- Sphere C's refractive index is 2.5. -/
lemma sphereC_refr : sphereC.get_material.refractive = 2.5 := rfl

/-- Sphere A equals itself under object equality. -/
lemma obj_eq_AA : Object.is_equal sphereA sphereA := by
  simp [sphereA, Object.is_equal]

/-- Sphere B equals itself under object equality. -/
lemma obj_eq_BB : Object.is_equal sphereB sphereB := by
  simp [sphereB, Object.is_equal]

/-- Sphere C equals itself under object equality. -/
lemma obj_eq_CC : Object.is_equal sphereC sphereC := by
  simp [sphereC, Object.is_equal]

/-- Spheres A and B have distinct transforms, hence are unequal. -/
lemma obj_ne_AB : ¬ Object.is_equal sphereA sphereB := by
  intro h
  simp only [sphereA, sphereB, Object.is_equal, Matrix4.is_equal,
    Tuple.is_equal, scaling, translation] at h
  obtain ⟨⟨hx, -, -, -⟩, -, -, -⟩ := h
  norm_num [float_is_equal, EPSILON] at hx

/-- Spheres A and C have distinct transforms, hence are unequal. -/
lemma obj_ne_AC : ¬ Object.is_equal sphereA sphereC := by
  intro h
  simp only [sphereA, sphereC, Object.is_equal, Matrix4.is_equal,
    Tuple.is_equal, scaling, translation] at h
  obtain ⟨⟨hx, -, -, -⟩, -, -, -⟩ := h
  norm_num [float_is_equal, EPSILON] at hx

/-- Spheres B and C have distinct transforms, hence are unequal. -/
lemma obj_ne_BC : ¬ Object.is_equal sphereB sphereC := by
  intro h
  simp only [sphereB, sphereC, Object.is_equal, Matrix4.is_equal,
    Tuple.is_equal, translation] at h
  obtain ⟨-, -, ⟨-, -, -, hw⟩, -⟩ := h
  norm_num [float_is_equal, EPSILON, abs_lt] at hw

/-- The three-sphere world's intersections with the probing ray are the
six expected ones, in ascending t order. -/
lemma tri_world_intersect_eval : World.intersect tri_world tri_ray = tri_list := by
  norm_num [World.intersect, tri_world, tri_ray, Object.intersect,
    Object.get_inverse_transform, sphereA, sphereB, sphereC, scaling,
    translation, Ray.transform, Matrix4.multiply_tuple, Tuple.dot,
    Tuple.point, Tuple.vector, Sphere.intersect, Tuple.subtract, sort_by_t,
    List.insertionSort, List.orderedInsert, t_le, Real.sqrt_one, sqrt_four,
    tri_list]

/-- C1: for the ray through the three concentric transparent spheres
(refractive indices 1.5, 2.0, 2.5), the world intersection list is the six
ordered hits, and `prepare_computations` at each of them (given the full
list) yields the (n1, n2) pairs (1,1.5), (1.5,2), (2,2.5), (2.5,2.5),
(2.5,1.5), (1.5,1); in general, at the first intersection whose t equals
the hit's t, `refractive_indices_for` returns n1 = refractive index of the
topmost object of the containment stack built from the preceding
intersections (1 if empty) and n2 = that of the topmost object after
toggling that intersection's own object (1 if empty). -/
theorem refractive_indices_stack :
    World.intersect tri_world tri_ray = tri_list ∧
    (((Intersection.mk 2 sphereA).prepare_computations tri_ray tri_list).n1 = 1 ∧
     ((Intersection.mk 2 sphereA).prepare_computations tri_ray tri_list).n2 = 1.5 ∧
     ((Intersection.mk 2.75 sphereB).prepare_computations tri_ray tri_list).n1 = 1.5 ∧
     ((Intersection.mk 2.75 sphereB).prepare_computations tri_ray tri_list).n2 = 2 ∧
     ((Intersection.mk 3.25 sphereC).prepare_computations tri_ray tri_list).n1 = 2 ∧
     ((Intersection.mk 3.25 sphereC).prepare_computations tri_ray tri_list).n2 = 2.5 ∧
     ((Intersection.mk 4.75 sphereB).prepare_computations tri_ray tri_list).n1 = 2.5 ∧
     ((Intersection.mk 4.75 sphereB).prepare_computations tri_ray tri_list).n2 = 2.5 ∧
     ((Intersection.mk 5.25 sphereC).prepare_computations tri_ray tri_list).n1 = 2.5 ∧
     ((Intersection.mk 5.25 sphereC).prepare_computations tri_ray tri_list).n2 = 1.5 ∧
     ((Intersection.mk 6 sphereA).prepare_computations tri_ray tri_list).n1 = 1.5 ∧
     ((Intersection.mk 6 sphereA).prepare_computations tri_ray tri_list).n2 = 1) ∧
    (∀ (i : Intersection) (l : List Intersection) (k : ℕ) (hk : k < l.length),
      (l.get ⟨k, hk⟩).t = i.t →
      (∀ j ∈ l.take k, j.t ≠ i.t) →
      i.refractive_indices_for l =
        (last_refractive (stack_after (l.take k)),
         last_refractive (refr_toggle (stack_after (l.take k))
           (l.get ⟨k, hk⟩)))) := by
  refine ⟨tri_world_intersect_eval,
    ⟨?_, ?_, ?_, ?_, ?_, ?_, ?_, ?_, ?_, ?_, ?_, ?_⟩, ?gen⟩
  case gen =>
    intro i l k hk hget hpre
    rw [Intersection.refractive_indices_for,
      refr_loop_prefix l k [] 1 1 i.t hk hget hpre]
    rfl
  all_goals
    simp only [Intersection.prepare_computations]
    norm_num [Intersection.refractive_indices_for, refr_loop, refr_toggle,
      remove_first_equal, last_refractive, tri_list, obj_eq_AA, obj_eq_BB,
      obj_eq_CC, obj_ne_AB, obj_ne_AC, obj_ne_BC, sphereA_refr, sphereB_refr,
      sphereC_refr]

/-- C1 witness: the general stack characterization applied to a singleton
list hitting its own intersection at index 0. -/
theorem refractive_indices_stack_witness :
    Intersection.refractive_indices_for ⟨2, sphereA⟩ [⟨2, sphereA⟩] =
      (last_refractive (stack_after ([] : List Intersection)),
       last_refractive (refr_toggle (stack_after ([] : List Intersection))
         ⟨2, sphereA⟩)) := by
  have h := refractive_indices_stack.2.2 ⟨2, sphereA⟩ [⟨2, sphereA⟩] 0
    (by norm_num) (by rfl) (by simp)
  simpa using h

end Scintilla
